import Mathlib

/-!
# Verification of the spawner container lifecycle & idle-reclamation engine

Shallow embedding, in Lean 4, of the three source files of the repository:

* `src/types.rs` — identifier types (`DroneId`, `BackendId`) and the
  resource-name round trip built on the fixed RESOURCE_PREFIX `"spawner-"`;
* `src/drone/agent/docker.rs` — the container runtime interface
  (`ContainerEvent::from_event_message`, `is_running`, `get_port`,
  `run_container` configuration);
* `spawner/src/idle_pod_collector.rs` — the idle reconciliation controller
  (`reconcile`, `error_policy`).

Strings are modelled as `List Char` where character-level reasoning is
needed (the Rust `str::strip_prefix`), and as `String` elsewhere.  Machine
integers are modelled as `Nat`/`Int` with explicit two's-complement casts
(`asI32`, `i32AsU64`) where the Rust code performs `as` casts.
-/

namespace Spawner

/-! ## Identifier types (`src/types.rs`) -/

/-- The fixed resource-name namespace, RESOURCE_PREFIX in the source:
the characters of the string constant `"spawner-"`. -/
def resourcePrefixChars : List Char := "spawner-".toList

/-- An opaque string identifier for one running workload
(`pub struct BackendId(String)`), modelled at character level. -/
structure BackendId where
  id : List Char
deriving DecidableEq, Repr

/-- Rust `str::strip_prefix p s`: `some` of the remainder when `p` is a
prefix of `s`, `none` otherwise, by simultaneous character scan. -/
def stripPfx : List Char → List Char → Option (List Char)
  | [], s => some s
  | _ :: _, [] => none
  | p :: ps, c :: cs => if p = c then stripPfx ps cs else none

/-- `BackendId::to_resource_name`: `format!("{RESOURCE_PREFIX}{id}")`. -/
def BackendId.to_resource_name (b : BackendId) : List Char :=
  resourcePrefixChars ++ b.id

/-- `BackendId::from_resource_name`: strip RESOURCE_PREFIX, wrap the
remainder; `none` when the name lacks the prefix. -/
def BackendId.from_resource_name (resource_name : List Char) : Option BackendId :=
  (stripPfx resourcePrefixChars resource_name).map (fun d => BackendId.mk d)

/-- Stripping a prefix from the concatenation of that prefix with a tail
recovers exactly the tail. -/
theorem stripPfx_append (p s : List Char) : stripPfx p (p ++ s) = some s := by
  induction p with
  | nil => rfl
  | cons c cs ih => simp [stripPfx, ih]

/-- When the scan succeeds, the prefix really did occur at the front. -/
theorem stripPfx_isPrefixOf (p s : List Char) (h : (stripPfx p s).isSome) :
    p.isPrefixOf s = true := by
  induction p generalizing s with
  | nil => simp [List.isPrefixOf]
  | cons c cs ih =>
    cases s with
    | nil => simp [stripPfx] at h
    | cons d ds =>
      by_cases hcd : c = d
      · subst hcd
        simp only [stripPfx, if_pos rfl] at h
        simpa [List.isPrefixOf] using ih ds h
      · simp [stripPfx, hcd] at h

/-! ## Event classifier (`src/drone/agent/docker.rs`) -/

/-- The closed list of possible container events
(`pub enum ContainerEventType`), 24 variants. -/
inductive ContainerEventType where
  | Attach | Commit | Copy | Create | Destroy | Detach | Die
  | ExecCreate | ExecDetach | ExecDie | ExecStart | Export
  | HealthStatus | Kill | Oom | Pause | Rename | Resize | Restart
  | Start | Stop | Top | Unpause | Update
deriving DecidableEq, Repr

/-- Actor of a raw runtime event (`bollard::models::EventActor`): only the
`attributes` map is consumed, modelled as an association list. -/
structure EventActor where
  attributes : Option (List (String × String))
deriving DecidableEq, Repr

/-- Raw runtime event (`bollard::models::EventMessage`): only the `action`
and `actor` fields are consumed. -/
structure EventMessage where
  action : Option String
  actor : Option EventActor
deriving DecidableEq, Repr

/-- `HashMap::get` on the attributes map, via first-match association
lookup. -/
def attrGet (m : List (String × String)) (k : String) : Option String :=
  (m.find? (fun e => e.1 = k)).map (fun e => e.2)

/-- The `match action` arm of `ContainerEvent::from_event_message`:
the fixed, case-sensitive 24-entry action vocabulary; any other string
falls to the `_` arm and yields `none` (logged, not an error). -/
def actionToEventType (action : String) : Option ContainerEventType :=
  match action with
  | "attach" => some .Attach
  | "commit" => some .Commit
  | "copy" => some .Copy
  | "create" => some .Create
  | "destroy" => some .Destroy
  | "detach" => some .Detach
  | "die" => some .Die
  | "exec_create" => some .ExecCreate
  | "exec_detach" => some .ExecDetach
  | "exec_die" => some .ExecDie
  | "exec_start" => some .ExecStart
  | "export" => some .Export
  | "health_status" => some .HealthStatus
  | "kill" => some .Kill
  | "oom" => some .Oom
  | "pause" => some .Pause
  | "rename" => some .Rename
  | "resize" => some .Resize
  | "restart" => some .Restart
  | "start" => some .Start
  | "stop" => some .Stop
  | "top" => some .Top
  | "unpause" => some .Unpause
  | "update" => some .Update
  | _ => none

/-- A classified container lifecycle event (`pub struct ContainerEvent`). -/
structure ContainerEvent where
  event : ContainerEventType
  name : String
deriving DecidableEq, Repr

/-- `ContainerEvent::from_event_message`: extract `action`, `actor`, the
actor's `name` attribute (each missing field aborts with `none`), then
match the action against the fixed vocabulary. -/
def ContainerEvent.from_event_message (e : EventMessage) : Option ContainerEvent := do
  let action ← e.action
  let actor ← e.actor
  let attrs ← actor.attributes
  let name ← attrGet attrs "name"
  let event ← actionToEventType action
  some { event := event, name := name }

/-! ## Container inspection (`is_running`, `get_port`) -/

/-- The port in the container which is exposed (CONTAINER_PORT). -/
def containerPortNum : Nat := 8080

/-- The runtime's port-map key `format!("{CONTAINER_PORT}/tcp")`. -/
def containerPortKey : String := toString containerPortNum ++ "/tcp"

/-- `bollard::models::ContainerState`: the two fields `is_running` reads. -/
structure ContainerState where
  running : Option Bool
  exit_code : Option Int
deriving DecidableEq, Repr

/-- One `bollard::models::PortBinding`. -/
structure PortBinding where
  host_ip : Option String
  host_port : Option String
deriving DecidableEq, Repr

/-- `bollard::models::NetworkSettings`: the `ports` map, each key bound to
an optional list of bindings, modelled as an association list. -/
structure NetworkSettings where
  ports : Option (List (String × Option (List PortBinding)))
deriving DecidableEq, Repr

/-- `bollard::models::ContainerInspectResponse`: the fields consumed by
`is_running` and `get_port`. -/
structure ContainerInspectResponse where
  state : Option ContainerState
  network_settings : Option NetworkSettings
deriving DecidableEq, Repr

/-- Errors the runtime's `inspect_container` call can yield
(`bollard::errors::Error`), abstracted to the shape `is_running` matches
on: a server response carrying a status code, or any other error. -/
inductive DockerError where
  | DockerResponseServerError (status_code : Nat)
  | OtherError
deriving DecidableEq, Repr

/-- Failure modes of `is_running` (its `anyhow::Result` error channel). -/
inductive IsRunningError where
  | inspectFailed (e : DockerError)
  | noState
  | noRunningField
deriving DecidableEq, Repr

/-- `DockerInterface::is_running`, as a function of the outcome of the
`inspect_container` call: a 404 server response is the normal
`(false, none)`; any other inspect error propagates; a missing `state` or
missing `running` field is an error; otherwise the exit code is reported
only when not running. -/
def is_running (inspectResult : Except DockerError ContainerInspectResponse) :
    Except IsRunningError (Bool × Option Int) :=
  match inspectResult with
  | .error (.DockerResponseServerError 404) => .ok (false, none)
  | .error err => .error (.inspectFailed err)
  | .ok container =>
    match container.state with
    | none => .error .noState
    | some state =>
      match state.running with
      | none => .error .noRunningField
      | some running =>
        let exit_code := if running then none else state.exit_code
        .ok (running, exit_code)

/-- Rust `str::parse::<u16>()`: optional leading `'+'`, then a non-empty
run of ASCII digits whose value fits in 16 bits; anything else fails. -/
def parseU16 (s : String) : Option Nat :=
  let cs0 := s.toList
  let cs := if cs0.head? = some '+' then cs0.tail else cs0
  if cs = [] then none
  else if cs.all (fun c => c.isDigit) then
    let n := cs.foldl (fun acc c => acc * 10 + (c.toNat - '0'.toNat)) 0
    if n ≤ 65535 then some n else none
  else none

/-- `DockerInterface::get_port`, as a function of the outcome of the
`inspect_container` call: every step of the lookup chain
(inspect `.ok()?`, `network_settings?`, `ports?`, the CONTAINER_PORT key,
the bindings vector, its first element, `host_port?`, `parse().ok()`)
short-circuits to `none`; the function never fails. -/
def get_port (inspectResult : Except DockerError ContainerInspectResponse) :
    Option Nat := do
  let inspect ← inspectResult.toOption
  let ns ← inspect.network_settings
  let ports ← ns.ports
  let entry ← (ports.find? (fun e => e.1 = containerPortKey)).map (fun e => e.2)
  let bindings ← entry
  let firstBinding ← bindings.head?
  let hp ← firstBinding.host_port
  parseU16 hp

/-! ## Container creation (`run_container`) -/

/-- The subset of `bollard::container::Config` that `run_container`
populates when creating a container. -/
structure CreateConfig where
  image : Option String
  env : Option (List String)
  exposed_ports : Option (List String)
  labels : Option (List (String × String))
  port_bindings : Option (List (String × Option (List PortBinding)))
  runtime : Option String
deriving DecidableEq, Repr

/-- The `Config` value built inside `DockerInterface::run_container` for a
given logical workload `name`, `image` and environment, with the
interface's optional runtime override. -/
def run_container_config (runtimeOverride : Option String) (name image : String)
    (env : List (String × String)) : CreateConfig :=
  { image := some image
  , env := some (env.map (fun e => e.1 ++ "=" ++ e.2))
  , exposed_ports := some [containerPortKey]
  , labels := some
      [ ("dev.spawner.managed", "true")
      , ("dev.spawner.backend", name) ]
  , port_bindings := some
      [ (containerPortKey, some [{ host_ip := none, host_port := some "0" }]) ]
  , runtime := runtimeOverride }

/-! ## Idle reconciliation controller (`spawner/src/idle_pod_collector.rs`) -/

/-- Rust `as i32` applied to an unsigned value: reduce mod 2^32 and
reinterpret in two's complement. -/
def asI32 (n : Nat) : Int :=
  let m : Nat := n % 2 ^ 32
  if m < 2 ^ 31 then (m : Int) else (m : Int) - 2 ^ 32

/-- Wrapping an `Int` into the `i32` range (two's complement), the value a
Rust `i32` arithmetic result holds. -/
def wrapI32 (i : Int) : Int :=
  ((i + 2 ^ 31) % 2 ^ 32) - 2 ^ 31

/-- Rust `as u64` applied to an `i32` value: two's-complement
reinterpretation (sign extension) into `[0, 2^64)`. -/
def i32AsU64 (i : Int) : Nat :=
  (i % 2 ^ 64).toNat

/-- `enum IdlePodCollectorError`. -/
inductive IdlePodCollectorError where
  | ErrorCheckingStatus
  | ErrorDeletingPod
deriving DecidableEq, Repr

/-- `kube::runtime::controller::ReconcilerAction`: an optional requeue
delay in whole seconds (`Duration::from_secs`). -/
structure ReconcilerAction where
  requeue_after : Option Nat
deriving DecidableEq, Repr

/-- The workload's self-reported idle state (`seconds_inactive: u32`),
fetched by `get_pod_state`. -/
structure PodState where
  seconds_inactive : Nat
deriving DecidableEq, Repr

/-- `ctx.cleanup_frequency_seconds as i32 - pod_state.seconds_inactive as i32`:
the signed time-to-live computed by `reconcile`. -/
def secondsUntilExpired (cleanup_frequency_seconds seconds_inactive : Nat) : Int :=
  wrapI32 (asI32 cleanup_frequency_seconds - asI32 seconds_inactive)

/-- One `reconcile` pass, as a function of the outcomes of its two external
calls (the `get_pod_state` status query and the `delete_pod` call).
Returns the `Result` of the pass together with the number of `delete_pod`
calls issued during it.  A failed status query aborts with
`ErrorCheckingStatus` before any delete; when the ttl is non-positive one
delete is issued (a failure there aborts with `ErrorDeletingPod`);
otherwise the pass requeues after `seconds_until_expired as u64` seconds. -/
def reconcile (cleanup_frequency_seconds : Nat)
    (statusResult : Except Unit PodState)
    (deleteResult : Except Unit Unit) :
    Except IdlePodCollectorError ReconcilerAction × Nat :=
  match statusResult with
  | .error _ => (.error .ErrorCheckingStatus, 0)
  | .ok pod_state =>
    let ttl := secondsUntilExpired cleanup_frequency_seconds pod_state.seconds_inactive
    if ttl ≤ 0 then
      match deleteResult with
      | .error _ => (.error .ErrorDeletingPod, 1)
      | .ok _ => (.ok { requeue_after := some (i32AsU64 ttl) }, 1)
    else
      (.ok { requeue_after := some (i32AsU64 ttl) }, 0)

/-- `error_policy`: on any reconciliation error, requeue after the fixed
360-second backoff. -/
def error_policy (_error : IdlePodCollectorError) : ReconcilerAction :=
  { requeue_after := some 360 }

/-! ## Claims -/

/-- C5: for every valid workload id,
`from_resource_name(to_resource_name(id)) == id`: prepending the fixed
`"spawner-"` prefix and parsing the name back yields the original id. -/
theorem resource_name_roundtrip (id : BackendId) :
    BackendId.from_resource_name (BackendId.to_resource_name id) = some id := by
  simp [BackendId.from_resource_name, BackendId.to_resource_name, stripPfx_append]

/-- C6: for every string that does not start with the fixed `"spawner-"`
prefix, `from_resource_name` returns no match (`none`), not an id and not
an error. -/
theorem from_resource_name_unprefixed (s : List Char)
    (h : resourcePrefixChars.isPrefixOf s = false) :
    BackendId.from_resource_name s = none := by
  unfold BackendId.from_resource_name
  cases hs : stripPfx resourcePrefixChars s with
  | none => rfl
  | some r =>
    have hpre := stripPfx_isPrefixOf resourcePrefixChars s (by simp [hs])
    rw [hpre] at h
    cases h

/-- C6 witness: `from_resource_name("not-prefixed")` is no match. -/
theorem from_resource_name_unprefixed_witness :
    BackendId.from_resource_name ("not-prefixed".toList) = none :=
  from_resource_name_unprefixed ("not-prefixed".toList) (by decide)

/-- C1 (code bug): after expiry the requeue delay is NOT the claimed
`max(ttl, 0)`.  With `cleanup_frequency_seconds = 600` and
`seconds_inactive = 610` (ttl = −10) the pass succeeds, deletes once, and
requeues after `(-10_i32) as u64 = 2^64 − 10` seconds — the
sign-extended raw negative value, where the claim requires
`max(−10, 0) = 0`. -/
theorem reconcile_requeue_sign_extension_bug :
    reconcile 600 (.ok { seconds_inactive := 610 }) (.ok ()) =
      (.ok { requeue_after := some (2 ^ 64 - 10) }, 1) ∧
    (2 ^ 64 - 10 : Nat) ≠ Int.toNat (max (600 - 610 : Int) 0) := by
  constructor
  · rfl
  · decide

/-- `asI32` is the identity on values below `2^31`. -/
theorem asI32_of_lt (n : Nat) (h : n < 2 ^ 31) : asI32 n = (n : Int) := by
  have h32 : n < 2 ^ 32 := lt_trans h (by norm_num)
  simp only [asI32, Nat.mod_eq_of_lt h32]
  rw [if_pos h]

/-- `wrapI32` is the identity on the `i32` range. -/
theorem wrapI32_of_mem (i : Int) (hlo : -(2 ^ 31) ≤ i) (hhi : i < 2 ^ 31) :
    wrapI32 i = i := by
  unfold wrapI32
  rw [Int.emod_eq_of_lt (by omega) (by omega)]
  omega

/-- The code's ttl agrees with mathematical signed subtraction whenever
both operands fit in `i32`. -/
theorem secondsUntilExpired_eq_sub (c s : Nat)
    (hc : c < 2 ^ 31) (hs : s < 2 ^ 31) :
    secondsUntilExpired c s = (c : Int) - (s : Int) := by
  unfold secondsUntilExpired
  rw [asI32_of_lt c hc, asI32_of_lt s hs]
  apply wrapI32_of_mem <;> omega

/-- C2: the pass computes `ttl = cleanup_frequency_seconds −
seconds_inactive` in signed arithmetic (so it may be negative), and issues
exactly one delete call when `ttl ≤ 0` and none when `ttl > 0`, whatever
the delete outcome. -/
theorem reconcile_delete_iff_ttl_nonpos (c s : Nat)
    (hc : c < 2 ^ 31) (hs : s < 2 ^ 31) (d : Except Unit Unit) :
    secondsUntilExpired c s = (c : Int) - (s : Int) ∧
    (reconcile c (.ok { seconds_inactive := s }) d).2 =
      (if (c : Int) - (s : Int) ≤ 0 then 1 else 0) := by
  have httl := secondsUntilExpired_eq_sub c s hc hs
  refine ⟨httl, ?_⟩
  simp only [reconcile, httl]
  split
  · cases d <;> rfl
  · rfl

/-- C2 witness: at cleanup frequency 600s, a workload idle 610s is deleted
exactly once, and a workload idle 550s is not deleted. -/
theorem reconcile_delete_iff_ttl_nonpos_witness :
    (reconcile 600 (.ok { seconds_inactive := 610 }) (.ok ())).2 = 1 ∧
    (reconcile 600 (.ok { seconds_inactive := 550 }) (.ok ())).2 = 0 := by
  have h1 := reconcile_delete_iff_ttl_nonpos 600 610 (by decide) (by decide) (.ok ())
  have h2 := reconcile_delete_iff_ttl_nonpos 600 550 (by decide) (by decide) (.ok ())
  rw [h1.2, h2.2]
  decide

/-- C3: a pass whose status query fails issues no delete call, aborts with
`ErrorCheckingStatus`, and the error policy schedules the next check after
exactly the fixed 360-second backoff, for every error kind (hence
independent of any ttl). -/
theorem status_check_failed_backoff (c : Nat) (d : Except Unit Unit) :
    (reconcile c (.error ()) d).2 = 0 ∧
    (reconcile c (.error ()) d).1 = .error .ErrorCheckingStatus ∧
    ∀ e : IdlePodCollectorError, (error_policy e).requeue_after = some 360 :=
  ⟨rfl, rfl, fun _ => rfl⟩

/-- The fixed 24-entry action vocabulary, in source order. -/
def actionVocabulary : List String :=
  [ "attach", "commit", "copy", "create", "destroy", "detach", "die"
  , "exec_create", "exec_detach", "exec_die", "exec_start", "export"
  , "health_status", "kill", "oom", "pause", "rename", "resize", "restart"
  , "start", "stop", "top", "unpause", "update" ]

/-- An action string outside the fixed vocabulary falls to the default
match arm and classifies to nothing. -/
theorem actionToEventType_eq_none (a : String) (h : a ∉ actionVocabulary) :
    actionToEventType a = none := by
  unfold actionToEventType
  split <;> simp_all [actionVocabulary]

/-- C4: classification returns no event whenever the raw event lacks an
action, lacks an actor, lacks the actor's attributes, or lacks a `name`
attribute; an action outside the fixed 24-entry vocabulary (even with all
fields present) also yields no event rather than an error; and an event
with action `"start"` and actor `name` attribute `n` classifies as `Start`
with workload name `n`. -/
theorem from_event_message_classification :
    (∀ e : EventMessage, e.action = none →
        ContainerEvent.from_event_message e = none) ∧
    (∀ e : EventMessage, e.actor = none →
        ContainerEvent.from_event_message e = none) ∧
    (∀ a : String, ContainerEvent.from_event_message
        { action := some a, actor := some { attributes := none } } = none) ∧
    (∀ a attrs, attrGet attrs "name" = none →
        ContainerEvent.from_event_message
          { action := some a, actor := some { attributes := some attrs } } = none) ∧
    (∀ a attrs, a ∉ actionVocabulary →
        ContainerEvent.from_event_message
          { action := some a, actor := some { attributes := some attrs } } = none) ∧
    (∀ attrs n, attrGet attrs "name" = some n →
        ContainerEvent.from_event_message
          { action := some "start", actor := some { attributes := some attrs } } =
          some { event := .Start, name := n }) := by
  refine ⟨?_, ?_, ?_, ?_, ?_, ?_⟩
  · intro e he
    simp [ContainerEvent.from_event_message, he]
  · intro e he
    simp [ContainerEvent.from_event_message, he]
  · intro a
    simp [ContainerEvent.from_event_message]
  · intro a attrs hn
    simp [ContainerEvent.from_event_message, hn]
  · intro a attrs ha
    have := actionToEventType_eq_none a ha
    cases hn : attrGet attrs "name" <;>
      simp [ContainerEvent.from_event_message, hn, this]
  · intro attrs n hn
    simp [ContainerEvent.from_event_message, hn, actionToEventType]

/-- C4 witness: concrete raw events — missing action, missing actor,
missing attributes, missing `name` attribute, unknown action
`"frobnicate"`, and a well-formed `"start"` event for workload
`"web-1"`. -/
theorem from_event_message_classification_witness :
    ContainerEvent.from_event_message
      { action := none, actor := some { attributes := some [("name", "web-1")] } }
      = none ∧
    ContainerEvent.from_event_message { action := some "start", actor := none }
      = none ∧
    ContainerEvent.from_event_message
      { action := some "start", actor := some { attributes := none } } = none ∧
    ContainerEvent.from_event_message
      { action := some "start", actor := some { attributes := some [("id", "7")] } }
      = none ∧
    ContainerEvent.from_event_message
      { action := some "frobnicate"
      , actor := some { attributes := some [("name", "web-1")] } } = none ∧
    ContainerEvent.from_event_message
      { action := some "start"
      , actor := some { attributes := some [("name", "web-1")] } } =
      some { event := .Start, name := "web-1" } :=
  ⟨from_event_message_classification.1 _ rfl,
   from_event_message_classification.2.1 _ rfl,
   from_event_message_classification.2.2.1 "start",
   from_event_message_classification.2.2.2.1 "start" [("id", "7")] (by decide),
   from_event_message_classification.2.2.2.2.1 "frobnicate" [("name", "web-1")]
     (by decide),
   from_event_message_classification.2.2.2.2.2 [("name", "web-1")] "web-1"
     (by decide)⟩

/-- C7: a 404 ("container not found") inspect response yields the normal
value `(false, none)` without an error; any other inspect error propagates
as a failure; a running container always reports exit code `none`; a
stopped container whose state records exit code 137 reports
`(false, some 137)`. -/
theorem is_running_spec :
    is_running (.error (.DockerResponseServerError 404)) = .ok (false, none) ∧
    (∀ e : DockerError, e ≠ .DockerResponseServerError 404 →
        is_running (.error e) = .error (.inspectFailed e)) ∧
    (∀ c st, c.state = some st → st.running = some true →
        is_running (.ok c) = .ok (true, none)) ∧
    (∀ c st, c.state = some st → st.running = some false →
        st.exit_code = some 137 → is_running (.ok c) = .ok (false, some 137)) := by
  refine ⟨rfl, ?_, ?_, ?_⟩
  · intro e he
    unfold is_running
    split
    · rename_i heq
      exact absurd (by injection heq) he
    · rename_i err heq
      injection heq with h
      rw [h]
    · rename_i heq
      cases heq
  · intro c st hst hrun
    simp [is_running, hst, hrun]
  · intro c st hst hrun hexit
    simp [is_running, hst, hrun, hexit]

/-- C7 witness: concrete inspect outcomes — a non-404 error propagates, a
running container reports no exit code, and a stopped container with
recorded exit code 137 reports `(false, some 137)`. -/
theorem is_running_spec_witness :
    is_running (.error .OtherError) = .error (.inspectFailed .OtherError) ∧
    is_running (.ok { state := some { running := some true, exit_code := some 0 }
                    , network_settings := none }) = .ok (true, none) ∧
    is_running (.ok { state := some { running := some false, exit_code := some 137 }
                    , network_settings := none }) = .ok (false, some 137) :=
  ⟨is_running_spec.2.1 .OtherError (by decide),
   is_running_spec.2.2.1 _ _ rfl rfl,
   is_running_spec.2.2.2 _ _ rfl rfl rfl⟩

/-- C10: when the inspect call succeeds but the response lacks the state
object, or its state lacks the `running` field, `is_running` returns an
error — never a normal `(running, exit_code)` value. -/
theorem is_running_missing_fields_error :
    (∀ c : ContainerInspectResponse, c.state = none →
        is_running (.ok c) = .error .noState) ∧
    (∀ c st, c.state = some st → st.running = none →
        is_running (.ok c) = .error .noRunningField) := by
  constructor
  · intro c hst
    simp [is_running, hst]
  · intro c st hst hrun
    simp [is_running, hst, hrun]

/-- C10 witness: concrete inspect responses with a missing state object
and with a state lacking the `running` field both yield errors. -/
theorem is_running_missing_fields_error_witness :
    is_running (.ok { state := none, network_settings := none })
      = .error .noState ∧
    is_running (.ok { state := some { running := none, exit_code := some 137 }
                    , network_settings := none }) = .error .noRunningField :=
  ⟨is_running_missing_fields_error.1 _ rfl,
   is_running_missing_fields_error.2 _ _ rfl rfl⟩

/-- A string containing a character that is neither an ASCII digit nor the
single allowed leading `'+'` sign never parses as a `u16`. -/
theorem parseU16_nonNumeric (s : String) (c : Char) (hc : c ∈ s.toList)
    (hd : c.isDigit = false) (hp : c ≠ '+') : parseU16 s = none := by
  have key : ∀ l : List Char, c ∈ l →
      l ≠ [] ∧ l.all (fun x => x.isDigit) = false := by
    intro l hcl
    refine ⟨fun h => ?_, ?_⟩
    · subst h; cases hcl
    · rw [List.all_eq_false]
      exact ⟨c, hcl, by simp [hd]⟩
  unfold parseU16
  cases hl : s.toList with
  | nil => rw [hl] at hc; cases hc
  | cons a rest =>
    rw [hl] at hc
    by_cases ha : a = '+'
    · subst ha
      have hcr : c ∈ rest := by
        rcases List.mem_cons.mp hc with h | h
        · exact absurd h hp
        · exact h
      obtain ⟨hne, hall⟩ := key rest hcr
      simp [hl, hne, hall]
    · obtain ⟨hne, hall⟩ := key (a :: rest) hc
      simp [hl, ha, hne, hall]

/-- C8: `get_port` never fails — for every inspect outcome it yields a
port or nothing; and it yields nothing when the container has no network
settings, no ports map, no mapping for the well-known
`"8080/tcp"` key, or a host-port string that does not parse as a number
(in particular any string with a character that is not a digit nor a
leading sign). -/
theorem get_port_best_effort :
    (∀ r, get_port r = none ∨ ∃ p, get_port r = some p) ∧
    (∀ insp : ContainerInspectResponse, insp.network_settings = none →
        get_port (.ok insp) = none) ∧
    (∀ st ns, ns.ports = none →
        get_port (.ok { state := st, network_settings := some ns }) = none) ∧
    (∀ st ports, ports.find? (fun e => e.1 = containerPortKey) = none →
        get_port (.ok { state := st
                      , network_settings := some { ports := some ports } })
          = none) ∧
    (∀ st s, parseU16 s = none →
        get_port (.ok { state := st
                      , network_settings := some { ports := some [(containerPortKey, some [{ host_ip := none, host_port := some s }])] } })
          = none) ∧
    (∀ s c, c ∈ s.toList → c.isDigit = false → c ≠ '+' →
        parseU16 s = none) := by
  refine ⟨?_, ?_, ?_, ?_, ?_, ?_⟩
  · intro r
    cases h : get_port r with
    | none => exact Or.inl rfl
    | some p => exact Or.inr ⟨p, rfl⟩
  · intro insp hns
    obtain ⟨st, ns⟩ := insp
    cases hns
    rfl
  · intro st ns hports
    obtain ⟨p⟩ := ns
    cases hports
    rfl
  · intro st ports hfind
    simp only [get_port, Except.toOption, Option.bind_eq_bind, Option.some_bind,
      hfind]
    rfl
  · intro st s hparse
    simp only [get_port, Except.toOption, Option.bind_eq_bind, Option.some_bind,
      List.find?]
    simp [hparse]
  · intro s c hc hd hp
    exact parseU16_nonNumeric s c hc hd hp

/-- C8 witness: concrete inspect outcomes — no network settings, no ports
map, an empty ports map, and a non-numeric host-port string `"abc"` — all
yield no port. -/
theorem get_port_best_effort_witness :
    get_port (.ok { state := none, network_settings := none }) = none ∧
    get_port (.ok { state := none, network_settings := some { ports := none } })
      = none ∧
    get_port (.ok { state := none
                  , network_settings := some { ports := some [] } }) = none ∧
    get_port (.ok { state := none
                  , network_settings := some { ports := some [(containerPortKey, some [{ host_ip := none, host_port := some "abc" }])] } })
      = none :=
  ⟨get_port_best_effort.2.1 _ rfl,
   get_port_best_effort.2.2.1 none _ rfl,
   get_port_best_effort.2.2.2.1 none [] rfl,
   get_port_best_effort.2.2.2.2.1 none "abc"
     (get_port_best_effort.2.2.2.2.2 "abc" 'a' (by decide) (by decide) (by decide))⟩

/-- C9: every container created by `run_container` carries exactly the two
fixed discovery labels: `dev.spawner.managed = "true"` and
`dev.spawner.backend = <workload name>`. -/
theorem run_container_labels (rt : Option String) (name image : String)
    (env : List (String × String)) :
    ∃ labels, (run_container_config rt name image env).labels = some labels ∧
      labels.length = 2 ∧
      attrGet labels "dev.spawner.managed" = some "true" ∧
      attrGet labels "dev.spawner.backend" = some name :=
  ⟨_, rfl, rfl, rfl, rfl⟩

end Spawner
